import Mathlib

/-!
Verification of the d365-odata-mcp core: a shallow embedding of the
repository's query builder (src/odata/client.rs, QueryOptions::to_query_string),
token cache and OAuth2 flow (src/auth/mod.rs), retry executor
(ODataClient::execute_with_retry) and page walker (ODataClient::fetch_all_pages),
together with theorems settling the specification's claims about them.

Machine integers (u64, u32, usize) are modelled as Nat, with an explicit
wrap modulo 2 ^ 64 at the one place a u64 multiplication can overflow
(the exponential-backoff doubling).  Monotonic instants (std::time::Instant)
are modelled as Int so that points before an arbitrary origin are expressible;
durations added to them are in seconds, matching the source which only ever
adds Duration::from_secs values to instants.
-/

/-! ## Product variant (src/config/config.rs, ProductType) -/

inductive ProductType where
  | dataverse
  | finops
deriving DecidableEq, Repr

/-! ## Query builder (src/odata/client.rs, QueryOptions) -/

structure QueryOptions where
  select : Option (List String) := none
  filter : Option String := none
  top : Option Nat := none
  skip : Option Nat := none
  orderby : Option String := none
  expand : Option (List String) := none
  cross_company : Bool := false
  count : Bool := false
deriving Repr, DecidableEq

/-- The params vector built by QueryOptions::to_query_string, in the source's
push order: $select, $filter, $top, $skip, $orderby, $expand, $count=true,
then cross-company=true gated on the flag and the Finops product variant. -/
def queryParams (o : QueryOptions) (product : ProductType) : List String :=
  (match o.select with
   | some s => ["$select=" ++ ",".intercalate s]
   | none => []) ++
  (match o.filter with
   | some f => ["$filter=" ++ f]
   | none => []) ++
  (match o.top with
   | some t => ["$top=" ++ toString t]
   | none => []) ++
  (match o.skip with
   | some s => ["$skip=" ++ toString s]
   | none => []) ++
  (match o.orderby with
   | some ob => ["$orderby=" ++ ob]
   | none => []) ++
  (match o.expand with
   | some e => ["$expand=" ++ ",".intercalate e]
   | none => []) ++
  (if o.count then ["$count=true"] else []) ++
  (if o.cross_company ∧ product = ProductType.finops
   then ["cross-company=true"] else [])

/-- QueryOptions::to_query_string: empty string when no params, otherwise
a question mark followed by the params joined with ampersands. -/
def toQueryString (o : QueryOptions) (product : ProductType) : String :=
  let params := queryParams o product
  if params.isEmpty then "" else "?" ++ "&".intercalate params

/-- The worked example of the spec: select=[name,email],
filter=status eq 'active', top=10, orderby=name asc, all else unset. -/
def exampleOptions : QueryOptions :=
  { select := some ["name", "email"]
    filter := some "status eq \x27active\x27"
    top := some 10
    orderby := some "name asc" }

/-! ## Token cache (src/auth/mod.rs, CachedToken) -/

structure CachedToken where
  access_token : String
  expires_at : Int
deriving Repr, DecidableEq

/-- CachedToken::is_valid: the token is usable while
expires_at > now + 60 seconds. -/
def isValid (t : CachedToken) (now : Int) : Bool :=
  decide (t.expires_at > now + 60)

/-! ## Authentication configuration (src/auth/mod.rs) -/

inductive AuthType where
  | azureAd
  | adfs
deriving DecidableEq, Repr

structure AuthConfig where
  auth_type : AuthType
  tenant_id : String
  client_id : String
  client_secret : String
  token_url : Option String := none
  resource : Option String := none
deriving Repr, DecidableEq

/-- OAuth2Auth::token_endpoint: ADFS uses the configured token_url if any,
defaulting to the constructed adfs URL; Azure AD always uses the fixed
login.microsoftonline.com template. -/
def tokenEndpoint (cfg : AuthConfig) : String :=
  match cfg.auth_type with
  | AuthType.adfs =>
      cfg.token_url.getD ("https://" ++ cfg.tenant_id ++ "/adfs/oauth2/token")
  | AuthType.azureAd =>
      "https://login.microsoftonline.com/" ++ cfg.tenant_id ++ "/oauth2/v2.0/token"

/-! ## Token acquisition (src/auth/mod.rs, OAuth2Auth) -/

/-- The JSON token response decoded by acquire_token; token_type and
ext_expires_in are decoded but unused by the source. -/
structure TokenResponse where
  access_token : String
  token_type : String := ""
  expires_in : Nat
  ext_expires_in : Nat := 0
deriving Repr, DecidableEq

/-- A token-endpoint HTTP response: status, raw body, and the result of the
serde decode of the body into a TokenResponse (none models a decode
failure). -/
structure TokenHttpResponse where
  status : Nat
  body : String := ""
  decoded : Option TokenResponse := none
deriving Repr

/-- AuthError variants relevant to acquire_token; the source formats status
and body into the error message, here kept as payloads. -/
inductive AuthError where
  | tokenRequestFailed (status : Nat) (body : String)
  | parseError
deriving Repr, DecidableEq

/-- The form-encoded token request body built by acquire_token: Azure AD
sends grant_type, client_id, client_secret and a scope derived from the
resource by appending /.default (plain .default when the resource already
ends in a slash); ADFS sends grant_type, client_id, client_secret and a
resource parameter (the configured resource, else the passed-in one). -/
def tokenParams (cfg : AuthConfig) (resource : String) : List (String × String) :=
  match cfg.auth_type with
  | AuthType.azureAd =>
    let scope := if resource.endsWith "/" then resource ++ ".default"
      else resource ++ "/.default"
    [("grant_type", "client_credentials"), ("client_id", cfg.client_id),
     ("client_secret", cfg.client_secret), ("scope", scope)]
  | AuthType.adfs =>
    let r := cfg.resource.getD resource
    [("grant_type", "client_credentials"), ("client_id", cfg.client_id),
     ("client_secret", cfg.client_secret), ("resource", r)]

/-- Result of one get_token call: the returned token or error, the cache
slot afterwards, and the form bodies POSTed to the token endpoint. -/
structure TokenFlowResult where
  outcome : Except AuthError String
  cache : Option CachedToken
  requests : List (List (String × String))
deriving Repr

/-- acquire_token: POST the variant-specific form body (send abstracts the
HTTP POST to the token endpoint).  A non-2xx status fails with status and
body, leaving the cache untouched; a decode failure fails as a parse error,
leaving the cache untouched; otherwise the cache is replaced wholesale by a
token expiring at now + expires_in and the access token is returned. -/
def acquireToken (cfg : AuthConfig)
    (send : List (String × String) → TokenHttpResponse)
    (now : Int) (cache : Option CachedToken) (resource : String) :
    TokenFlowResult :=
  let params := tokenParams cfg resource
  let resp := send params
  if ¬(200 ≤ resp.status ∧ resp.status ≤ 299) then
    { outcome := Except.error (AuthError.tokenRequestFailed resp.status resp.body)
      cache := cache
      requests := [params] }
  else
    match resp.decoded with
    | none =>
      { outcome := Except.error AuthError.parseError
        cache := cache
        requests := [params] }
    | some tr =>
      { outcome := Except.ok tr.access_token
        cache := some ⟨tr.access_token, now + (tr.expires_in : Int)⟩
        requests := [params] }

/-- get_token: a cached token passing the validity check is returned with no
network request; otherwise a new token is acquired. -/
def getToken (cfg : AuthConfig)
    (send : List (String × String) → TokenHttpResponse)
    (now : Int) (cache : Option CachedToken) (resource : String) :
    TokenFlowResult :=
  match cache with
  | some c =>
    if isValid c now then
      { outcome := Except.ok c.access_token, cache := cache, requests := [] }
    else acquireToken cfg send now cache resource
  | none => acquireToken cfg send now cache resource

/-- A concrete Azure AD configuration for witness instances. -/
def witnessAuthConfig : AuthConfig :=
  { auth_type := AuthType.azureAd
    tenant_id := "t"
    client_id := "cid"
    client_secret := "sec" }

/-- A token endpoint answering 200 with a decodable token. -/
def sendOk : List (String × String) → TokenHttpResponse :=
  fun _ => { status := 200, decoded := some { access_token := "tok", expires_in := 3600 } }

/-- A token endpoint answering 400 with body bad. -/
def sendBadStatus : List (String × String) → TokenHttpResponse :=
  fun _ => { status := 400, body := "bad" }

/-- A token endpoint answering 200 with an undecodable body. -/
def sendBadBody : List (String × String) → TokenHttpResponse :=
  fun _ => { status := 200, body := "garbage" }

/-! ## Retry executor (src/odata/client.rs, ODataClient::execute_with_retry) -/

/-- One HTTP response as seen by the retry loop: numeric status, the
Retry-After header when present (as the raw header string), and the body. -/
structure HttpResponse where
  status : Nat
  retryAfter : Option String := none
  body : String := ""
deriving Repr, DecidableEq

/-- Rust u64::from_str as used for the Retry-After header: an optional
leading plus sign, then one or more decimal digits, rejecting the empty
string, non-digits, and values that overflow 64 bits. -/
def parseU64 (s : String) : Option Nat :=
  let digits := match s.data with
    | '+' :: rest => rest
    | cs => cs
  if digits.isEmpty then none
  else if digits.all Char.isDigit then
    let v := digits.foldl (fun acc c => acc * 10 + (c.toNat - 48)) 0
    if v < 2 ^ 64 then some v else none
  else none

inductive SleepEvent where
  | secs (n : Nat)
  | millis (n : Nat)
deriving Repr, DecidableEq

inductive RetryResult where
  | ok (attempt : Nat)
  | rateLimited (retryAfter : Nat)
  | notFound (body : String)
  | serverError (status : Nat) (body : String)
deriving Repr, DecidableEq

/-- Observable trace of one execute_with_retry call: the outcome, the total
number of HTTP attempts performed, and the sleeps in order (seconds for 429
backoff, milliseconds for 5xx backoff, as in the source). -/
structure RetryTrace where
  result : RetryResult
  attempts : Nat
  sleeps : List SleepEvent
deriving Repr, DecidableEq

/-- The loop body of execute_with_retry.  `attempt` is the number of requests
already performed (the Rust counter before its += 1), `delay` the current
backoff in milliseconds; `responses n` is the response to request n
(0-based, so the response handled in this iteration is `responses attempt`).
Statuses 200/201/204 succeed; 429 computes the retry-after seconds from the
header (falling back to delay / 1000), fails when attempt + 1 has reached
max_retries, and otherwise sleeps that many seconds and doubles the delay
(u64 wrap); 404 fails immediately; 5xx retries like 429 but sleeps the delay
in milliseconds; every other status fails immediately as a server error. -/
def retryLoop (maxRetries : Nat) (responses : Nat → HttpResponse)
    (attempt delay : Nat) : RetryTrace :=
  let resp := responses attempt
  if resp.status = 200 ∨ resp.status = 201 ∨ resp.status = 204 then
    ⟨RetryResult.ok (attempt + 1), attempt + 1, []⟩
  else if resp.status = 429 then
    let retryAfter := (resp.retryAfter.bind parseU64).getD (delay / 1000)
    if maxRetries ≤ attempt + 1 then
      ⟨RetryResult.rateLimited retryAfter, attempt + 1, []⟩
    else
      let r := retryLoop maxRetries responses (attempt + 1) (delay * 2 % 2 ^ 64)
      ⟨r.result, r.attempts, SleepEvent.secs retryAfter :: r.sleeps⟩
  else if resp.status = 404 then
    ⟨RetryResult.notFound resp.body, attempt + 1, []⟩
  else if 500 ≤ resp.status ∧ resp.status ≤ 599 then
    if maxRetries ≤ attempt + 1 then
      ⟨RetryResult.serverError resp.status resp.body, attempt + 1, []⟩
    else
      let r := retryLoop maxRetries responses (attempt + 1) (delay * 2 % 2 ^ 64)
      ⟨r.result, r.attempts, SleepEvent.millis delay :: r.sleeps⟩
  else
    ⟨RetryResult.serverError resp.status resp.body, attempt + 1, []⟩
termination_by maxRetries - attempt
decreasing_by all_goals omega

/-- execute_with_retry enters the loop with attempt = 0 and
delay = retry_delay_ms. -/
def executeWithRetry (maxRetries retryDelayMs : Nat)
    (responses : Nat → HttpResponse) : RetryTrace :=
  retryLoop maxRetries responses 0 retryDelayMs

/-- A response stream answering 429 (no Retry-After header) on the first two
requests and 200 afterwards. -/
def seq429x2then200 : Nat → HttpResponse :=
  fun n => if n < 2 then { status := 429 } else { status := 200 }

/-- A response stream answering 429 (no Retry-After header) forever. -/
def seq429all : Nat → HttpResponse :=
  fun _ => { status := 429 }

/-- A response stream answering 503 with body oops forever. -/
def seq500all : Nat → HttpResponse :=
  fun _ => { status := 503, body := "oops" }

/-- A response stream answering 404 with body nf forever. -/
def seq404all : Nat → HttpResponse :=
  fun _ => { status := 404, body := "nf" }

/-- A response stream answering 403 with body forbidden forever. -/
def seq403all : Nat → HttpResponse :=
  fun _ => { status := 403, body := "forbidden" }

/-! ## Page walker (src/odata/client.rs, fetch_entity_page / fetch_all_pages) -/

/-- An OData page as consumed by the walker: the continuation link and the
value array (records are opaque to the core, hence the type parameter);
context, count and delta link are passed through unexamined and omitted. -/
structure ODataPage (α : Type) where
  next_link : Option String := none
  value : List α := []
deriving Repr, DecidableEq

/-- fetch_entity_page URL selection: a continuation link is used verbatim;
otherwise the URL is endpoint ++ entity ++ query string. -/
def buildPageUrl (endpoint entity : String) (nextLink : Option String)
    (o : QueryOptions) (product : ProductType) : String :=
  match nextLink with
  | some link => link
  | none => endpoint ++ entity ++ toQueryString o product

/-- One fetch_entity_page call on its success path: compute the URL and ask
the server (abstracting the authenticated, retried, JSON-decoded transport)
for the page at that URL; the URL actually fetched is returned alongside. -/
def fetchEntityPage {α : Type} (server : String → ODataPage α)
    (endpoint entity : String) (nextLink : Option String)
    (o : QueryOptions) (product : ProductType) : String × ODataPage α :=
  let url := buildPageUrl endpoint entity nextLink o product
  (url, server url)

/-- The fetch_all_pages loop: start with no continuation link, fetch a page
per iteration, accumulate its records, continue on its continuation link and
stop at the first page without one.  The Rust loop is unbounded; fuel only
bounds this recursion, and none is returned solely on fuel exhaustion, which
the page-walk theorem shows unreachable given enough fuel.  Returns the
accumulated records and the URLs fetched, in order. -/
def fetchPagesAux {α : Type} (server : String → ODataPage α)
    (endpoint entity : String) (o : QueryOptions) (product : ProductType) :
    Nat → Option String → Option (List α × List String)
  | 0, _ => none
  | fuel + 1, nextLink =>
    let p := fetchEntityPage server endpoint entity nextLink o product
    match p.2.next_link with
    | some link =>
      match fetchPagesAux server endpoint entity o product fuel (some link) with
      | some (recs, urls) => some (p.2.value ++ recs, p.1 :: urls)
      | none => none
    | none => some (p.2.value, [p.1])

/-- fetch_all_pages enters the loop with next_link = none. -/
def fetchAllPages {α : Type} (server : String → ODataPage α)
    (endpoint entity : String) (o : QueryOptions) (product : ProductType)
    (fuel : Nat) : Option (List α × List String) :=
  fetchPagesAux server endpoint entity o product fuel none

/-- The URLs a page walk fetches when the server serves `pages` from `url`:
the URL itself, then the trace from the page's continuation link. -/
def pageUrlTrace {α : Type} : String → List (ODataPage α) → List String
  | _, [] => []
  | url, p :: ps =>
    url :: (match p.next_link with
            | some link => pageUrlTrace link ps
            | none => [])

/-- The server serves the page sequence `pages` starting at `url`: each page
is returned at its URL, every page but the last carries a continuation link
at which the next page is served, and the last page carries none. -/
inductive Serves {α : Type} (server : String → ODataPage α) :
    String → List (ODataPage α) → Prop
  | last {url : String} {p : ODataPage α} :
      server url = p → p.next_link = none → Serves server url [p]
  | step {url link : String} {p : ODataPage α} {ps : List (ODataPage α)} :
      server url = p → p.next_link = some link → Serves server link ps →
      Serves server url (p :: ps)

/-- Three concrete pages for the C3 witness. -/
def witnessPages : List (ODataPage Nat) :=
  [{ next_link := some "L1", value := [1, 2] },
   { next_link := some "L2", value := [3] },
   { next_link := none, value := [4, 5] }]

/-- A concrete server serving the three witness pages from E/items. -/
def witnessServer : String → ODataPage Nat :=
  fun url =>
    if url = "E/items" then { next_link := some "L1", value := [1, 2] }
    else if url = "L1" then { next_link := some "L2", value := [3] }
    else if url = "L2" then { next_link := none, value := [4, 5] }
    else { }

/-! ## Theorems -/

/-- Unfolding lemma: a 200/201/204 response ends the loop successfully with
no further sleeps. -/
theorem retryLoop_ok (maxRetries : Nat) (responses : Nat → HttpResponse)
    (attempt delay : Nat)
    (h : (responses attempt).status = 200 ∨ (responses attempt).status = 201 ∨
      (responses attempt).status = 204) :
    retryLoop maxRetries responses attempt delay =
      ⟨RetryResult.ok (attempt + 1), attempt + 1, []⟩ := by
  conv_lhs => unfold retryLoop
  simp only [if_pos h]

/-- Unfolding lemma: a 429 response with retries left sleeps the computed
retry-after seconds and continues with the delay doubled. -/
theorem retryLoop_429_retry (maxRetries : Nat) (responses : Nat → HttpResponse)
    (attempt delay : Nat) (h : (responses attempt).status = 429)
    (hlt : attempt + 1 < maxRetries) :
    retryLoop maxRetries responses attempt delay =
      ⟨(retryLoop maxRetries responses (attempt + 1) (delay * 2 % 2 ^ 64)).result,
       (retryLoop maxRetries responses (attempt + 1) (delay * 2 % 2 ^ 64)).attempts,
       SleepEvent.secs (((responses attempt).retryAfter.bind parseU64).getD (delay / 1000)) ::
         (retryLoop maxRetries responses (attempt + 1) (delay * 2 % 2 ^ 64)).sleeps⟩ := by
  conv_lhs => unfold retryLoop
  simp [h, Nat.not_le.mpr hlt]

/-- Unfolding lemma: a 429 response with the retry budget exhausted fails
rate-limited with the computed retry-after value, with no further sleep. -/
theorem retryLoop_429_fail (maxRetries : Nat) (responses : Nat → HttpResponse)
    (attempt delay : Nat) (h : (responses attempt).status = 429)
    (hge : maxRetries ≤ attempt + 1) :
    retryLoop maxRetries responses attempt delay =
      ⟨RetryResult.rateLimited
         (((responses attempt).retryAfter.bind parseU64).getD (delay / 1000)),
       attempt + 1, []⟩ := by
  conv_lhs => unfold retryLoop
  simp [h, hge]

/-- Unfolding lemma: a 404 response fails immediately with the body. -/
theorem retryLoop_404 (maxRetries : Nat) (responses : Nat → HttpResponse)
    (attempt delay : Nat) (h : (responses attempt).status = 404) :
    retryLoop maxRetries responses attempt delay =
      ⟨RetryResult.notFound (responses attempt).body, attempt + 1, []⟩ := by
  conv_lhs => unfold retryLoop
  simp [h]

/-- Unfolding lemma: a 5xx response with retries left sleeps the current
delay in milliseconds and continues with the delay doubled. -/
theorem retryLoop_5xx_retry (maxRetries : Nat) (responses : Nat → HttpResponse)
    (attempt delay : Nat) (h5 : 500 ≤ (responses attempt).status)
    (h5' : (responses attempt).status ≤ 599)
    (hlt : attempt + 1 < maxRetries) :
    retryLoop maxRetries responses attempt delay =
      ⟨(retryLoop maxRetries responses (attempt + 1) (delay * 2 % 2 ^ 64)).result,
       (retryLoop maxRetries responses (attempt + 1) (delay * 2 % 2 ^ 64)).attempts,
       SleepEvent.millis delay ::
         (retryLoop maxRetries responses (attempt + 1) (delay * 2 % 2 ^ 64)).sleeps⟩ := by
  conv_lhs => unfold retryLoop
  have h200 : ¬((responses attempt).status = 200 ∨ (responses attempt).status = 201 ∨
      (responses attempt).status = 204) := by omega
  have h429 : ¬(responses attempt).status = 429 := by omega
  have h404 : ¬(responses attempt).status = 404 := by omega
  simp [h200, h429, h404, h5, h5', Nat.not_le.mpr hlt]

/-- Unfolding lemma: a 5xx response with the retry budget exhausted fails as
a server error carrying status and body, with no further sleep. -/
theorem retryLoop_5xx_fail (maxRetries : Nat) (responses : Nat → HttpResponse)
    (attempt delay : Nat) (h5 : 500 ≤ (responses attempt).status)
    (h5' : (responses attempt).status ≤ 599)
    (hge : maxRetries ≤ attempt + 1) :
    retryLoop maxRetries responses attempt delay =
      ⟨RetryResult.serverError (responses attempt).status (responses attempt).body,
       attempt + 1, []⟩ := by
  conv_lhs => unfold retryLoop
  have h200 : ¬((responses attempt).status = 200 ∨ (responses attempt).status = 201 ∨
      (responses attempt).status = 204) := by omega
  have h429 : ¬(responses attempt).status = 429 := by omega
  have h404 : ¬(responses attempt).status = 404 := by omega
  simp [h200, h429, h404, h5, h5', hge]

/-- Unfolding lemma: any status other than 200/201/204, 429, 404 and 5xx
fails immediately as a server error carrying status and body. -/
theorem retryLoop_other (maxRetries : Nat) (responses : Nat → HttpResponse)
    (attempt delay : Nat)
    (h200 : ¬((responses attempt).status = 200 ∨ (responses attempt).status = 201 ∨
      (responses attempt).status = 204))
    (h429 : (responses attempt).status ≠ 429)
    (h404 : (responses attempt).status ≠ 404)
    (h5xx : ¬(500 ≤ (responses attempt).status ∧ (responses attempt).status ≤ 599)) :
    retryLoop maxRetries responses attempt delay =
      ⟨RetryResult.serverError (responses attempt).status (responses attempt).body,
       attempt + 1, []⟩ := by
  conv_lhs => unfold retryLoop
  simp [h200, h429, h404, h5xx]

/-- Claim C5: a cached token passes the validity check iff now + 60 seconds is
strictly below its expiry; a token expiring at now + 3600 is valid, one
expiring at now - 60 is not, and one expiring exactly at now + 60 is not. -/
theorem c5_token_validity (t : CachedToken) (now : Int) (s : String) :
    (isValid t now = true ↔ now + 60 < t.expires_at) ∧
    isValid ⟨s, now + 3600⟩ now = true ∧
    isValid ⟨s, now - 60⟩ now = false ∧
    isValid ⟨s, now + 60⟩ now = false := by
  refine ⟨?_, ?_, ?_, ?_⟩ <;> (simp [isValid]; try omega)

/-- Claim C6: to_query_string emits only the parameters actually set, joined
with ampersands behind a question mark, and the empty string when none are
set; on the spec's worked example it emits exactly $select=name,email,
$filter=status eq 'active', $top=10 and $orderby=name asc, in that order,
verbatim, omitting $skip, $expand, $count and cross-company. -/
theorem c6_query_string (o : QueryOptions) (product : ProductType) :
    toQueryString o product =
      (if queryParams o product = [] then ""
       else "?" ++ "&".intercalate (queryParams o product)) ∧
    toQueryString {} product = "" ∧
    queryParams exampleOptions product =
      ["$select=name,email", "$filter=status eq \x27active\x27",
       "$top=10", "$orderby=name asc"] ∧
    toQueryString exampleOptions product =
      "?$select=name,email&$filter=status eq \x27active\x27&$top=10&$orderby=name asc" := by
  refine ⟨?_, ?_, ?_, ?_⟩
  · simp [toQueryString, List.isEmpty_iff]
  · rfl
  · rfl
  · rfl

/-- Claim C7: the params vector is the flag-cleared params vector, with
cross-company=true appended exactly when the cross_company flag is set and
the product variant is Finops; in particular on Dataverse the query string
is identical to the one with the flag unset. -/
theorem c7_cross_company (o : QueryOptions) (product : ProductType) :
    queryParams o product =
      queryParams { o with cross_company := false } product ++
        (if o.cross_company ∧ product = ProductType.finops
         then ["cross-company=true"] else []) ∧
    toQueryString o ProductType.dataverse =
      toQueryString { o with cross_company := false } ProductType.dataverse := by
  constructor
  · simp [queryParams]
  · simp [toQueryString, queryParams]

/-- Claim C8: for ADFS the resolved token endpoint is the configured URL when
supplied, otherwise the constructed adfs default; for Azure AD it is always
the fixed login.microsoftonline.com URL, regardless of any configured
token_url. -/
theorem c8_token_endpoint (cfg : AuthConfig) (u : String) :
    tokenEndpoint { cfg with auth_type := AuthType.adfs, token_url := some u } = u ∧
    tokenEndpoint { cfg with auth_type := AuthType.adfs, token_url := none } =
      "https://" ++ cfg.tenant_id ++ "/adfs/oauth2/token" ∧
    tokenEndpoint { cfg with auth_type := AuthType.azureAd } =
      "https://login.microsoftonline.com/" ++ cfg.tenant_id ++ "/oauth2/v2.0/token" := by
  refine ⟨rfl, rfl, rfl⟩

/-- Claim C1: a 429 or 5xx response on attempt n with n < max_retries causes a
sleep followed by a retry with the delay doubled, while on attempt
n >= max_retries it terminates rate-limited with the computed delay (429) or
as a server error with status and body (5xx); for 429 the computed delay is
the parsed Retry-After header when present, else current_delay_ms / 1000.
On [429, 429, 200] with max_retries = 3 the call succeeds on the third
attempt after two sleeps with doubling delay; on [429, 429, 429] with
max_retries = 2 it fails rate-limited after two attempts and one sleep. -/
theorem c1_retry_transient (maxRetries : Nat) (responses : Nat → HttpResponse)
    (attempt delay : Nat) :
    ((responses attempt).status = 429 →
      (attempt + 1 < maxRetries →
        retryLoop maxRetries responses attempt delay =
          ⟨(retryLoop maxRetries responses (attempt + 1) (delay * 2 % 2 ^ 64)).result,
           (retryLoop maxRetries responses (attempt + 1) (delay * 2 % 2 ^ 64)).attempts,
           SleepEvent.secs
               (((responses attempt).retryAfter.bind parseU64).getD (delay / 1000)) ::
             (retryLoop maxRetries responses (attempt + 1) (delay * 2 % 2 ^ 64)).sleeps⟩) ∧
      (maxRetries ≤ attempt + 1 →
        retryLoop maxRetries responses attempt delay =
          ⟨RetryResult.rateLimited
             (((responses attempt).retryAfter.bind parseU64).getD (delay / 1000)),
           attempt + 1, []⟩)) ∧
    (500 ≤ (responses attempt).status → (responses attempt).status ≤ 599 →
      (attempt + 1 < maxRetries →
        retryLoop maxRetries responses attempt delay =
          ⟨(retryLoop maxRetries responses (attempt + 1) (delay * 2 % 2 ^ 64)).result,
           (retryLoop maxRetries responses (attempt + 1) (delay * 2 % 2 ^ 64)).attempts,
           SleepEvent.millis delay ::
             (retryLoop maxRetries responses (attempt + 1) (delay * 2 % 2 ^ 64)).sleeps⟩) ∧
      (maxRetries ≤ attempt + 1 →
        retryLoop maxRetries responses attempt delay =
          ⟨RetryResult.serverError (responses attempt).status (responses attempt).body,
           attempt + 1, []⟩)) ∧
    (∀ d, executeWithRetry 3 d seq429x2then200 =
      ⟨RetryResult.ok 3, 3,
       [SleepEvent.secs (d / 1000), SleepEvent.secs (d * 2 % 2 ^ 64 / 1000)]⟩) ∧
    (∀ d, executeWithRetry 2 d seq429all =
      ⟨RetryResult.rateLimited (d * 2 % 2 ^ 64 / 1000), 2,
       [SleepEvent.secs (d / 1000)]⟩) := by
  refine ⟨fun h429 => ⟨fun hlt => ?_, fun hge => ?_⟩,
    fun h5 h5' => ⟨fun hlt => ?_, fun hge => ?_⟩, fun d => ?_, fun d => ?_⟩
  · exact retryLoop_429_retry maxRetries responses attempt delay h429 hlt
  · exact retryLoop_429_fail maxRetries responses attempt delay h429 hge
  · exact retryLoop_5xx_retry maxRetries responses attempt delay h5 h5' hlt
  · exact retryLoop_5xx_fail maxRetries responses attempt delay h5 h5' hge
  · unfold executeWithRetry
    rw [retryLoop_429_retry 3 seq429x2then200 0 d rfl (by omega)]
    norm_num
    rw [retryLoop_429_retry 3 seq429x2then200 1 _ rfl (by omega)]
    norm_num
    rw [retryLoop_ok 3 seq429x2then200 2 _ (Or.inl rfl)]
    simp [seq429x2then200]
  · unfold executeWithRetry
    rw [retryLoop_429_retry 2 seq429all 0 d rfl (by omega)]
    norm_num
    rw [retryLoop_429_fail 2 seq429all 1 _ rfl (by omega)]
    simp [seq429all]

/-- Witness for C1: concrete instances of each branch — rate-limit
exhaustion at max_retries = 1 with Retry-After fallback 2000 / 1000 = 2,
the [429, 429, 200] success run with two sleeps, a 429 retry step with its
sleep of 2 seconds and doubled delay, and a 5xx immediate failure at
max_retries = 1. -/
theorem c1_retry_transient_witness :
    retryLoop 1 seq429all 0 2000 = ⟨RetryResult.rateLimited 2, 1, []⟩ ∧
    executeWithRetry 3 500 seq429x2then200 =
      ⟨RetryResult.ok 3, 3, [SleepEvent.secs 0, SleepEvent.secs 1]⟩ ∧
    retryLoop 2 seq429all 0 2000 =
      ⟨(retryLoop 2 seq429all 1 4000).result, (retryLoop 2 seq429all 1 4000).attempts,
       SleepEvent.secs 2 :: (retryLoop 2 seq429all 1 4000).sleeps⟩ ∧
    retryLoop 1 seq500all 0 100 =
      ⟨RetryResult.serverError 503 "oops", 1, []⟩ :=
  ⟨((c1_retry_transient 1 seq429all 0 2000).1 rfl).2 (by omega),
   (c1_retry_transient 3 seq429x2then200 0 500).2.2.1 500,
   ((c1_retry_transient 2 seq429all 0 2000).1 rfl).1 (by omega),
   ((c1_retry_transient 1 seq500all 0 100).2.1 (by decide) (by decide)).2 (by omega)⟩

/-- Claim C4: a 404 response terminates immediately with a not-found failure
carrying the body, and any other non-success status that is neither 429 nor
5xx terminates immediately as a server error carrying status and body; in
both cases no backoff sleep occurs, and a first-response 404 means exactly
one attempt regardless of max_retries. -/
theorem c4_non_retryable (maxRetries : Nat) (responses : Nat → HttpResponse)
    (attempt delay : Nat) :
    ((responses attempt).status = 404 →
      retryLoop maxRetries responses attempt delay =
        ⟨RetryResult.notFound (responses attempt).body, attempt + 1, []⟩) ∧
    (¬(200 ≤ (responses attempt).status ∧ (responses attempt).status ≤ 299) →
      (responses attempt).status ≠ 429 →
      (responses attempt).status ≠ 404 →
      ¬(500 ≤ (responses attempt).status ∧ (responses attempt).status ≤ 599) →
      retryLoop maxRetries responses attempt delay =
        ⟨RetryResult.serverError (responses attempt).status (responses attempt).body,
         attempt + 1, []⟩) ∧
    ((responses 0).status = 404 →
      executeWithRetry maxRetries delay responses =
        ⟨RetryResult.notFound (responses 0).body, 1, []⟩) := by
  refine ⟨fun h404 => ?_, fun hns h429 h404 h5xx => ?_, fun h404 => ?_⟩
  · exact retryLoop_404 maxRetries responses attempt delay h404
  · exact retryLoop_other maxRetries responses attempt delay (by omega) h429 h404 h5xx
  · unfold executeWithRetry
    rw [retryLoop_404 maxRetries responses 0 delay h404]

/-- Witness for C4: on an all-404 stream the executor performs one attempt
and fails not-found with the body; on an all-403 stream it performs one
attempt and fails as a server error. -/
theorem c4_non_retryable_witness :
    executeWithRetry 5 100 seq404all = ⟨RetryResult.notFound "nf", 1, []⟩ ∧
    retryLoop 5 seq403all 0 100 =
      ⟨RetryResult.serverError 403 "forbidden", 1, []⟩ :=
  ⟨(c4_non_retryable 5 seq404all 0 100).2.2 rfl,
   (c4_non_retryable 5 seq403all 0 100).2.1 (by decide) (by decide) (by decide)
     (by decide)⟩

/-- Claim C10: with no parseable Retry-After header the 429 fallback delay is
the integer division current_delay_ms / 1000, which is 0 whenever the delay
is below 1000 ms, so the executor sleeps 0 seconds before retrying (still
doubling the delay), and a rate-limited failure surfaced at that point
carries 0. -/
theorem c10_zero_fallback_delay (maxRetries : Nat) (responses : Nat → HttpResponse)
    (attempt delay : Nat) (h429 : (responses attempt).status = 429)
    (hhdr : (responses attempt).retryAfter.bind parseU64 = none)
    (hsmall : delay < 1000) :
    ((responses attempt).retryAfter.bind parseU64).getD (delay / 1000) = 0 ∧
    (attempt + 1 < maxRetries →
      retryLoop maxRetries responses attempt delay =
        ⟨(retryLoop maxRetries responses (attempt + 1) (delay * 2 % 2 ^ 64)).result,
         (retryLoop maxRetries responses (attempt + 1) (delay * 2 % 2 ^ 64)).attempts,
         SleepEvent.secs 0 ::
           (retryLoop maxRetries responses (attempt + 1) (delay * 2 % 2 ^ 64)).sleeps⟩) ∧
    (maxRetries ≤ attempt + 1 →
      retryLoop maxRetries responses attempt delay =
        ⟨RetryResult.rateLimited 0, attempt + 1, []⟩) := by
  have hz : delay / 1000 = 0 := Nat.div_eq_of_lt hsmall
  refine ⟨by rw [hhdr]; simp [hz], fun hlt => ?_, fun hge => ?_⟩
  · rw [retryLoop_429_retry maxRetries responses attempt delay h429 hlt, hhdr]
    simp [hz]
  · rw [retryLoop_429_fail maxRetries responses attempt delay h429 hge, hhdr]
    simp [hz]

/-- Witness for C10: with initial delay 500 ms and max_retries = 1, the first
429 surfaces a rate-limited failure carrying delay 0. -/
theorem c10_zero_fallback_delay_witness :
    retryLoop 1 seq429all 0 500 = ⟨RetryResult.rateLimited 0, 1, []⟩ :=
  (c10_zero_fallback_delay 1 seq429all 0 500 rfl rfl (by omega)).2.2 (by omega)

/-- With the retry budget already exhausted on entry, every branch of the
loop body is terminal, so exactly one more request is made. -/
theorem retryLoop_exhausted (maxRetries : Nat) (responses : Nat → HttpResponse)
    (attempt delay : Nat) (hge : maxRetries ≤ attempt + 1) :
    (retryLoop maxRetries responses attempt delay).attempts = attempt + 1 := by
  by_cases hok : (responses attempt).status = 200 ∨ (responses attempt).status = 201 ∨
      (responses attempt).status = 204
  · rw [retryLoop_ok _ _ _ _ hok]
  · by_cases h429 : (responses attempt).status = 429
    · rw [retryLoop_429_fail _ _ _ _ h429 hge]
    · by_cases h404 : (responses attempt).status = 404
      · rw [retryLoop_404 _ _ _ _ h404]
      · by_cases h5 : 500 ≤ (responses attempt).status ∧ (responses attempt).status ≤ 599
        · rw [retryLoop_5xx_fail _ _ _ _ h5.1 h5.2 hge]
        · rw [retryLoop_other _ _ _ _ hok h429 h404 h5]

/-- The attempts recorded by the loop lie between attempt + 1 and
max maxRetries (attempt + 1); proved by induction on the remaining budget. -/
theorem retryLoop_attempts_bounds (maxRetries : Nat) (responses : Nat → HttpResponse) :
    ∀ (k attempt delay : Nat), maxRetries - attempt ≤ k →
      attempt + 1 ≤ (retryLoop maxRetries responses attempt delay).attempts ∧
      (retryLoop maxRetries responses attempt delay).attempts ≤
        max maxRetries (attempt + 1) := by
  intro k
  induction k with
  | zero =>
    intro attempt delay hk
    have hge : maxRetries ≤ attempt + 1 := by omega
    rw [retryLoop_exhausted _ _ _ _ hge]
    exact ⟨Nat.le_refl _, Nat.le_max_right _ _⟩
  | succ k ih =>
    intro attempt delay hk
    by_cases hge : maxRetries ≤ attempt + 1
    · rw [retryLoop_exhausted _ _ _ _ hge]
      exact ⟨Nat.le_refl _, Nat.le_max_right _ _⟩
    · by_cases hok : (responses attempt).status = 200 ∨ (responses attempt).status = 201 ∨
          (responses attempt).status = 204
      · rw [retryLoop_ok _ _ _ _ hok]
        exact ⟨Nat.le_refl _, Nat.le_max_right _ _⟩
      · by_cases h429 : (responses attempt).status = 429
        · rw [retryLoop_429_retry _ _ _ _ h429 (by omega)]
          have h2 := ih (attempt + 1) (delay * 2 % 2 ^ 64) (by omega)
          refine ⟨le_trans (Nat.le_succ _) h2.1, ?_⟩
          show (retryLoop maxRetries responses (attempt + 1) (delay * 2 % 2 ^ 64)).attempts ≤
            max maxRetries (attempt + 1)
          have := h2.2
          omega
        · by_cases h404 : (responses attempt).status = 404
          · rw [retryLoop_404 _ _ _ _ h404]
            exact ⟨Nat.le_refl _, Nat.le_max_right _ _⟩
          · by_cases h5 : 500 ≤ (responses attempt).status ∧ (responses attempt).status ≤ 599
            · rw [retryLoop_5xx_retry _ _ _ _ h5.1 h5.2 (by omega)]
              have h2 := ih (attempt + 1) (delay * 2 % 2 ^ 64) (by omega)
              refine ⟨le_trans (Nat.le_succ _) h2.1, ?_⟩
              show (retryLoop maxRetries responses (attempt + 1) (delay * 2 % 2 ^ 64)).attempts ≤
                max maxRetries (attempt + 1)
              have := h2.2
              omega
            · rw [retryLoop_other _ _ _ _ hok h429 h404 h5]
              exact ⟨Nat.le_refl _, Nat.le_max_right _ _⟩

/-- Claim C9: the executor always performs at least one attempt, even with
max_retries = 0; the total attempts never exceed max maxRetries 1, so
max_retries bounds total attempts rather than retries; and with
max_retries <= 1 the first 429 or 5xx fails immediately with no sleep. -/
theorem c9_attempt_bounds (maxRetries delayMs : Nat) (responses : Nat → HttpResponse) :
    1 ≤ (executeWithRetry maxRetries delayMs responses).attempts ∧
    (executeWithRetry maxRetries delayMs responses).attempts ≤ max maxRetries 1 ∧
    (maxRetries ≤ 1 → (responses 0).status = 429 →
      executeWithRetry maxRetries delayMs responses =
        ⟨RetryResult.rateLimited
           (((responses 0).retryAfter.bind parseU64).getD (delayMs / 1000)), 1, []⟩) ∧
    (maxRetries ≤ 1 → 500 ≤ (responses 0).status → (responses 0).status ≤ 599 →
      executeWithRetry maxRetries delayMs responses =
        ⟨RetryResult.serverError (responses 0).status (responses 0).body, 1, []⟩) := by
  have hb := retryLoop_attempts_bounds maxRetries responses maxRetries 0 delayMs (by omega)
  refine ⟨hb.1, hb.2, fun hm h429 => ?_, fun hm h5 h5' => ?_⟩
  · exact retryLoop_429_fail maxRetries responses 0 delayMs h429 (by omega)
  · exact retryLoop_5xx_fail maxRetries responses 0 delayMs h5 h5' (by omega)

/-- Witness for C9: with max_retries = 1 an all-429 stream fails rate-limited
after exactly one attempt with no sleep, and with max_retries = 0 an all-503
stream still performs its single attempt before failing. -/
theorem c9_attempt_bounds_witness :
    executeWithRetry 1 2000 seq429all = ⟨RetryResult.rateLimited 2, 1, []⟩ ∧
    executeWithRetry 0 100 seq500all =
      ⟨RetryResult.serverError 503 "oops", 1, []⟩ :=
  ⟨(c9_attempt_bounds 1 2000 seq429all).2.2.1 (by omega) rfl,
   (c9_attempt_bounds 0 100 seq500all).2.2.2 (by omega) (by decide) (by decide)⟩

/-- Every branch of acquire_token posts exactly one request, with the
variant-specific form body. -/
theorem acquireToken_requests (cfg : AuthConfig)
    (send : List (String × String) → TokenHttpResponse)
    (now : Int) (cache : Option CachedToken) (resource : String) :
    (acquireToken cfg send now cache resource).requests =
      [tokenParams cfg resource] := by
  unfold acquireToken
  dsimp only
  split
  · rfl
  · split <;> rfl

/-- On a cache miss, get_token defers to acquire_token. -/
theorem getToken_miss (cfg : AuthConfig)
    (send : List (String × String) → TokenHttpResponse)
    (now : Int) (cache : Option CachedToken) (resource : String)
    (hmiss : ∀ c, cache = some c → isValid c now = false) :
    getToken cfg send now cache resource =
      acquireToken cfg send now cache resource := by
  cases cache with
  | none => rfl
  | some c => simp [getToken, hmiss c rfl]

/-- Claim C2: a cached token passing the validity check is returned with no
token-endpoint request and the cache unchanged; otherwise exactly one POST
of the variant-specific form body is made, and on a 2xx, decodable response
the cache is replaced wholesale by a token expiring at now + expires_in and
the access token is returned, while a non-2xx status yields a token-request
failure carrying status and body, a decode failure yields a parse failure,
and in both failure cases the cache is left as it was. -/
theorem c2_get_token (cfg : AuthConfig)
    (send : List (String × String) → TokenHttpResponse)
    (now : Int) (cache : Option CachedToken) (resource : String) :
    (∀ c, cache = some c → isValid c now = true →
      getToken cfg send now cache resource =
        { outcome := Except.ok c.access_token, cache := some c, requests := [] }) ∧
    ((∀ c, cache = some c → isValid c now = false) →
      (getToken cfg send now cache resource).requests = [tokenParams cfg resource] ∧
      (∀ tr, 200 ≤ (send (tokenParams cfg resource)).status →
        (send (tokenParams cfg resource)).status ≤ 299 →
        (send (tokenParams cfg resource)).decoded = some tr →
        getToken cfg send now cache resource =
          { outcome := Except.ok tr.access_token
            cache := some ⟨tr.access_token, now + (tr.expires_in : Int)⟩
            requests := [tokenParams cfg resource] }) ∧
      (¬(200 ≤ (send (tokenParams cfg resource)).status ∧
          (send (tokenParams cfg resource)).status ≤ 299) →
        getToken cfg send now cache resource =
          { outcome := Except.error (AuthError.tokenRequestFailed
              (send (tokenParams cfg resource)).status
              (send (tokenParams cfg resource)).body)
            cache := cache
            requests := [tokenParams cfg resource] }) ∧
      (200 ≤ (send (tokenParams cfg resource)).status →
        (send (tokenParams cfg resource)).status ≤ 299 →
        (send (tokenParams cfg resource)).decoded = none →
        getToken cfg send now cache resource =
          { outcome := Except.error AuthError.parseError
            cache := cache
            requests := [tokenParams cfg resource] })) := by
  constructor
  · intro c hc hv
    subst hc
    simp [getToken, hv]
  · intro hmiss
    rw [getToken_miss cfg send now cache resource hmiss]
    refine ⟨acquireToken_requests cfg send now cache resource, ?_, ?_, ?_⟩
    · intro tr h1 h2 hdec
      unfold acquireToken
      dsimp only
      rw [if_neg (by push_neg; exact ⟨h1, h2⟩), hdec]
    · intro hns
      unfold acquireToken
      dsimp only
      rw [if_pos hns]
    · intro h1 h2 hdec
      unfold acquireToken
      dsimp only
      rw [if_neg (by push_neg; exact ⟨h1, h2⟩), hdec]

/-- Witness for C2: a valid cached token is returned untouched with no
request; with an empty cache a 200 response caches and returns the token, a
400 response fails with status and body leaving the cache empty, and an
undecodable 200 fails as a parse error leaving the cache empty. -/
theorem c2_get_token_witness :
    getToken witnessAuthConfig sendOk 0 (some ⟨"cached", 100000⟩) "https://r" =
      { outcome := Except.ok "cached", cache := some ⟨"cached", 100000⟩,
        requests := [] } ∧
    getToken witnessAuthConfig sendOk 0 none "https://r" =
      { outcome := Except.ok "tok", cache := some ⟨"tok", 3600⟩,
        requests := [tokenParams witnessAuthConfig "https://r"] } ∧
    getToken witnessAuthConfig sendBadStatus 0 none "https://r" =
      { outcome := Except.error (AuthError.tokenRequestFailed 400 "bad"),
        cache := none, requests := [tokenParams witnessAuthConfig "https://r"] } ∧
    getToken witnessAuthConfig sendBadBody 0 none "https://r" =
      { outcome := Except.error AuthError.parseError, cache := none,
        requests := [tokenParams witnessAuthConfig "https://r"] } :=
  ⟨(c2_get_token witnessAuthConfig sendOk 0 (some ⟨"cached", 100000⟩) "https://r").1
      ⟨"cached", 100000⟩ rfl (by decide),
   ((c2_get_token witnessAuthConfig sendOk 0 none "https://r").2
      (fun c h => Option.noConfusion h)).2.1
      { access_token := "tok", expires_in := 3600 } (by decide) (by decide) rfl,
   ((c2_get_token witnessAuthConfig sendBadStatus 0 none "https://r").2
      (fun c h => Option.noConfusion h)).2.2.1 (by decide),
   ((c2_get_token witnessAuthConfig sendBadBody 0 none "https://r").2
      (fun c h => Option.noConfusion h)).2.2.2 (by decide) (by decide) rfl⟩

/-- Under Serves, the URL trace has exactly one URL per page. -/
theorem pageUrlTrace_length {α : Type} (server : String → ODataPage α) :
    ∀ (url : String) (pages : List (ODataPage α)), Serves server url pages →
      (pageUrlTrace url pages).length = pages.length := by
  intro url pages h
  induction h with
  | last hs hn => simp [pageUrlTrace, hn]
  | step hs hl hsv ih => simp [pageUrlTrace, hl, ih]

/-- The page walk driven from any next_link resolving to `url` returns the
concatenation of the served pages' records together with the URL trace,
given at least one unit of fuel per page. -/
theorem fetchPagesAux_serves {α : Type} (server : String → ODataPage α)
    (endpoint entity : String) (o : QueryOptions) (product : ProductType) :
    ∀ (url : String) (pages : List (ODataPage α)), Serves server url pages →
      ∀ (fuel : Nat), pages.length ≤ fuel →
      ∀ (nl : Option String), buildPageUrl endpoint entity nl o product = url →
      fetchPagesAux server endpoint entity o product fuel nl =
        some ((pages.map ODataPage.value).flatten, pageUrlTrace url pages) := by
  intro url pages h
  induction h with
  | last hs hn =>
    intro fuel hf nl hurl
    cases fuel with
    | zero => simp at hf
    | succ f =>
      simp [fetchPagesAux, fetchEntityPage, hurl, hs, hn, pageUrlTrace]
  | step hs hl hsv ih =>
    intro fuel hf nl hurl
    cases fuel with
    | zero => simp at hf
    | succ f =>
      rw [List.length_cons] at hf
      have hrec := ih f (by omega) (some _) rfl
      simp [fetchPagesAux, fetchEntityPage, hurl, hs, hl, hrec, pageUrlTrace]

/-- Claim C3: for a page sequence in which every page but the last carries a
continuation link, fetch_all_pages returns the concatenation of the pages'
records in arrival order after exactly one fetch per page; the first URL is
endpoint ++ entity ++ query string, each later URL is the previous page's
continuation link used verbatim (options are not consulted for it), and the
walk stops exactly at the first page without a link. -/
theorem c3_fetch_all_pages {α : Type} (server : String → ODataPage α)
    (endpoint entity : String) (o : QueryOptions) (product : ProductType)
    (pages : List (ODataPage α)) (fuel : Nat)
    (hserves : Serves server (endpoint ++ entity ++ toQueryString o product) pages)
    (hfuel : pages.length ≤ fuel) :
    fetchAllPages server endpoint entity o product fuel =
      some ((pages.map ODataPage.value).flatten,
        pageUrlTrace (endpoint ++ entity ++ toQueryString o product) pages) ∧
    (pageUrlTrace (endpoint ++ entity ++ toQueryString o product) pages).length =
      pages.length := by
  refine ⟨?_, pageUrlTrace_length server _ pages hserves⟩
  exact fetchPagesAux_serves server endpoint entity o product _ pages hserves fuel
    hfuel none rfl

/-- Witness for C3: three pages served from E/items come back concatenated
in arrival order after exactly three fetches, at the built URL and then the
two continuation links verbatim. -/
theorem c3_fetch_all_pages_witness :
    fetchAllPages witnessServer "E/" "items" {} ProductType.dataverse 3 =
      some ([1, 2, 3, 4, 5], ["E/items", "L1", "L2"]) ∧
    (["E/items", "L1", "L2"] : List String).length = witnessPages.length :=
  c3_fetch_all_pages witnessServer "E/" "items" {} ProductType.dataverse
    witnessPages 3
    (Serves.step rfl rfl (Serves.step rfl rfl (Serves.last rfl rfl)))
    (by decide)
